import Mathlib

/-!
Verification of the ghostbridge L2 settlement engine (src/src/settlement/)
against its natural-language specification.

The Rust sources are embedded shallowly:
* `HashMap`s become association lists carried in their iteration order
  (Rust's `std::collections::HashMap` iterates in an unspecified,
  per-process-randomized order; where a function's result depends on that
  order, the embedding exposes the order as the list order).
* `u64` arithmetic is `Nat` with an explicit `% 2^64` where the source can
  overflow; `U256` values are `Nat`, and the source's `U256` arithmetic
  (which round-trips through `to_u64` with saturating `u64` ops) is embedded
  as such.
* Byte strings (`Vec<u8>`, `[u8; N]`, UTF-8 bytes of strings that are
  hashed) are `List Nat` with entries below 256.
* `SystemTime` becomes a `Nat` instant passed explicitly where the source
  calls `SystemTime::now()`.
* Fallible functions return `Except`/`Option`, or a pair of an error option
  and the post-state when the source mutates `&mut self`.
* `sha2::Sha256` is embedded as an executable SHA-256 over byte lists.
-/

namespace GhostBridge

/-- Lookup in an association list (embeds `HashMap::get`). -/
def alookup {α β : Type} [DecidableEq α] : List (α × β) → α → Option β
  | [], _ => none
  | (k, v) :: rest, key => if k = key then some v else alookup rest key

/-- Insert-or-replace in an association list (embeds `HashMap::insert`:
an existing key keeps its position in the iteration order, a new key is
appended). -/
def ainsert {α β : Type} [DecidableEq α] : List (α × β) → α → β → List (α × β)
  | [], key, v => [(key, v)]
  | (k, w) :: rest, key, v =>
      if k = key then (k, v) :: rest else (k, w) :: ainsert rest key v

/-- Remove a key from an association list (embeds `HashMap::remove`). -/
def aremove {α β : Type} [DecidableEq α] : List (α × β) → α → List (α × β)
  | [], _ => []
  | (k, w) :: rest, key =>
      if k = key then rest else (k, w) :: aremove rest key

/-- Update the value at a key when present (embeds `HashMap::get_mut`
followed by a field update), leaving the list unchanged otherwise. -/
def aupdate {α β : Type} [DecidableEq α] (f : β → β) :
    List (α × β) → α → List (α × β)
  | [], _ => []
  | (k, w) :: rest, key =>
      if k = key then (k, f w) :: rest else (k, w) :: aupdate f rest key

/-- Truncation to a machine word: `x % 2^64` (Rust `u64` wrap-around). -/
def u64 (x : Nat) : Nat := x % 18446744073709551616

/-- Truncation of a `U256` value to `u64` (`U256::to_u64` reads the last
eight big-endian bytes, i.e. the value mod 2^64). -/
def u256ToU64 (x : Nat) : Nat := x % 18446744073709551616

/-- `&U256 + &U256` in `src/src/types.rs`: both sides are truncated to
`u64` and added with `saturating_add`. -/
def u256Add (a b : Nat) : Nat :=
  min (u256ToU64 a + u256ToU64 b) 18446744073709551615

/-- `&U256 - &U256` in `src/src/types.rs`: truncate to `u64`, then
`saturating_sub` (Lean's `Nat` subtraction is already saturating). -/
def u256Sub (a b : Nat) : Nat := u256ToU64 a - u256ToU64 b

/-- `&U256 * &U256` in `src/src/types.rs`: truncate to `u64`, then
`saturating_mul`. -/
def u256Mul (a b : Nat) : Nat :=
  min (u256ToU64 a * u256ToU64 b) 18446744073709551615

/-- Little-endian byte encoding of fixed width (one byte per step). -/
def leBytes : Nat → Nat → List Nat
  | 0, _ => []
  | w + 1, n => n % 256 :: leBytes w (n / 256)

/-- Big-endian byte encoding of fixed width. -/
def beBytes (w n : Nat) : List Nat := (leBytes w n).reverse

end GhostBridge

namespace GhostBridge.Sha256

/-- 32-bit truncation. -/
def w32 (x : Nat) : Nat := x % 4294967296

/-- Right rotation of a 32-bit word. -/
def rotr (n x : Nat) : Nat := w32 ((x >>> n) ||| (x <<< (32 - n)))

/-- SHA-256 small sigma 0. -/
def s0 (x : Nat) : Nat := (rotr 7 x) ^^^ (rotr 18 x) ^^^ (x >>> 3)

/-- SHA-256 small sigma 1. -/
def s1 (x : Nat) : Nat := (rotr 17 x) ^^^ (rotr 19 x) ^^^ (x >>> 10)

/-- SHA-256 big sigma 0. -/
def bs0 (x : Nat) : Nat := (rotr 2 x) ^^^ (rotr 13 x) ^^^ (rotr 22 x)

/-- SHA-256 big sigma 1. -/
def bs1 (x : Nat) : Nat := (rotr 6 x) ^^^ (rotr 11 x) ^^^ (rotr 25 x)

/-- SHA-256 choice function. -/
def ch (x y z : Nat) : Nat := (x &&& y) ^^^ ((w32 (4294967295 - x)) &&& z)

/-- SHA-256 majority function. -/
def maj (x y z : Nat) : Nat := (x &&& y) ^^^ (x &&& z) ^^^ (y &&& z)

/-- SHA-256 round constants. -/
def K : List Nat :=
  [1116352408, 1899447441, 3049323471, 3921009573, 961987163,
   1508970993, 2453635748, 2870763221, 3624381080, 310598401,
   607225278, 1426881987, 1925078388, 2162078206, 2614888103,
   3248222580, 3835390401, 4022224774, 264347078, 604807628,
   770255983, 1249150122, 1555081692, 1996064986, 2554220882,
   2821834349, 2952996808, 3210313671, 3336571891, 3584528711,
   113926993, 338241895, 666307205, 773529912, 1294757372,
   1396182291, 1695183700, 1986661051, 2177026350, 2456956037,
   2730485921, 2820302411, 3259730800, 3345764771, 3516065817,
   3600352804, 4094571909, 275423344, 430227734, 506948616,
   659060556, 883997877, 958139571, 1322822218, 1537002063,
   1747873779, 1955562222, 2024104815, 2227730452, 2361852424,
   2428436474, 2756734187, 3204031479, 3329325298]

/-- SHA-256 initial hash value. -/
def H0 : List Nat :=
  [1779033703, 3144134277, 1013904242,
   2773480762, 1359893119, 2600822924,
   528734635, 1541459225]

/-- Pack a list of bytes into big-endian 32-bit words (four bytes each). -/
def packWords : List Nat → List Nat
  | b0 :: b1 :: b2 :: b3 :: rest =>
      (b0 * 16777216 + b1 * 65536 + b2 * 256 + b3) :: packWords rest
  | _ => []

/-- Extend the 16 message words to 64 schedule words. -/
def extend (ws : List Nat) : Nat → List Nat
  | 0 => ws
  | n + 1 =>
      let ws' := extend ws n
      let i := ws'.length
      let w := w32 (s1 (ws'.getD (i - 2) 0) + ws'.getD (i - 7) 0 +
                    s0 (ws'.getD (i - 15) 0) + ws'.getD (i - 16) 0)
      ws' ++ [w]

/-- One round of the SHA-256 compression function on the working state
`[a, b, c, d, e, f, g, h]`. -/
def round (st : List Nat) (k w : Nat) : List Nat :=
  match st with
  | [a, b, c, d, e, f, g, h] =>
      let t1 := w32 (h + bs1 e + ch e f g + k + w)
      let t2 := w32 (bs0 a + maj a b c)
      [w32 (t1 + t2), a, b, c, w32 (d + t1), e, f, g]
  | other => other

/-- Compress one 64-byte block into the running hash. -/
def compress (h : List Nat) (block : List Nat) : List Nat :=
  let ws := extend (packWords block) 48
  let st := (List.zip K ws).foldl (fun st kw => round st kw.1 kw.2) h
  (List.zip h st).map fun p => w32 (p.1 + p.2)

/-- Split a byte list into 64-byte blocks, driven by a block-count fuel. -/
def blocks : Nat → List Nat → List (List Nat)
  | 0, _ => []
  | n + 1, bs => bs.take 64 :: blocks n (bs.drop 64)

/-- SHA-256 padding: `0x80`, zeros, and the 64-bit big-endian bit length. -/
def pad (msg : List Nat) : List Nat :=
  let l := msg.length
  let zeros := (119 - (l % 64)) % 64
  msg ++ 128 :: List.replicate zeros 0 ++ beBytes 8 (l * 8)

/-- SHA-256 of a byte list, as its 32 digest bytes (embeds the
`sha2::Sha256` digests computed throughout `src/src/settlement/`). -/
def sha256 (msg : List Nat) : List Nat :=
  let padded := pad msg
  let h := (blocks (padded.length / 64) padded).foldl compress H0
  h.flatMap (beBytes 4)

end GhostBridge.Sha256

namespace GhostBridge

/-- Token types of `src/src/types.rs` (`TokenType`). -/
inductive TokenType
  | Gcc
  | Spirit
  | Mana
  | Ghost
deriving DecidableEq

/-- UTF-8 bytes of `TokenType`'s `Display` output ("GCC", "SPIRIT", "MANA",
"GHOST"); the settlement code keys balance maps by `token_type.to_string()`
and hashes `token_type.as_bytes()`. -/
def TokenType.toBytes : TokenType → List Nat
  | .Gcc => [71, 67, 67]
  | .Spirit => [83, 80, 73, 82, 73, 84]
  | .Mana => [77, 65, 78, 65]
  | .Ghost => [71, 72, 79, 83, 84]

/-- UTF-8 bytes of the hard-coded token string "GCC" used by
`apply_state_changes` / `apply_single_change` (the source fixes the token
type to "GCC" with a TODO instead of extracting it from the transaction). -/
def gccBytes : List Nat := [71, 67, 67]

/-- An address: the 20 raw bytes of `Address(pub [u8; 20])`. -/
abbrev Address := List Nat

/-- A transaction as consumed by the settlement module (`id`, sender,
recipient, token amount, nonce, gas limit/price, payload, optional
signature); `amount` is the `U256` value of `amount.amount`. -/
structure Transaction where
  id : String
  from_address : Address
  to_address : Address
  amount_token : TokenType
  amount : Nat
  nonce : Nat
  gas_limit : Nat
  gas_price : Nat
  data : List Nat
  signature : Option (List Nat)
deriving DecidableEq

end GhostBridge

namespace GhostBridge.BatchProcessor

open GhostBridge

/-- `AccountState` of `src/src/settlement/batch_processor.rs` (the
`last_updated` timestamp is omitted: `compute_state_root` does not hash it
and no claim reads it). -/
structure AccountState where
  nonce : Nat
  balances : List (List Nat × Nat)
  storage_root : List Nat
  code_hash : List Nat
deriving DecidableEq

/-- `GlobalState` of `batch_processor.rs`; each `HashMap` is carried as an
association list in its iteration order. -/
structure GlobalState where
  state_root : List Nat
  accounts : List (Address × AccountState)
  storage : List ((Address × Nat) × Nat)
  nonces : List (Address × Nat)
  balances : List ((Address × List Nat) × Nat)
deriving DecidableEq

/-- `StateChangeType` of `batch_processor.rs`. -/
inductive StateChangeType
  | BalanceUpdate
  | NonceUpdate
  | StorageUpdate
  | CodeUpdate
  | AccountCreation
  | AccountDeletion
deriving DecidableEq

/-- `StateChange` of `batch_processor.rs`. -/
structure StateChange where
  change_type : StateChangeType
  address : Address
  key : Option Nat
  old_value : Nat
  new_value : Nat
deriving DecidableEq

/-- `ExecutionResult` of `batch_processor.rs` (without `return_data`, which
is always empty in the source). -/
structure ExecutionResult where
  success : Bool
  gas_used : Nat
  state_changes : List StateChange
  error : Option String
deriving DecidableEq

/-- `BatchProcessor::calculate_gas_cost`: base cost 21000, plus 16 gas per
payload byte, plus the 2300 transfer cost only when the amount is nonzero,
capped by the transaction's gas limit (`u64` arithmetic). -/
def calculate_gas_cost (tx : Transaction) : Nat :=
  let g1 := u64 (21000 + u64 (tx.data.length * 16))
  let g2 := if 0 < tx.amount then u64 (g1 + 2300) else g1
  min g2 tx.gas_limit

/-- `BatchProcessor::execute_single_transaction`: simple transfer execution
against `GlobalState` (balance check, then balance/balance/nonce deltas). -/
def execute_single_transaction (tx : Transaction) (state : GlobalState) :
    ExecutionResult :=
  let from_key := (tx.from_address, tx.amount_token.toBytes)
  let to_key := (tx.to_address, tx.amount_token.toBytes)
  let current_balance := (alookup state.balances from_key).getD 0
  if current_balance < tx.amount then
    { success := false, gas_used := 21000, state_changes := [],
      error := some "Insufficient balance" }
  else
    let gas_cost := calculate_gas_cost tx
    let new_from_balance := u256Sub current_balance tx.amount
    let current_to_balance := (alookup state.balances to_key).getD 0
    let new_to_balance := u256Add current_to_balance tx.amount
    let current_nonce := (alookup state.nonces tx.from_address).getD 0
    { success := true
      gas_used := gas_cost
      state_changes :=
        [ { change_type := .BalanceUpdate, address := tx.from_address,
            key := none, old_value := current_balance,
            new_value := new_from_balance },
          { change_type := .BalanceUpdate, address := tx.to_address,
            key := none, old_value := current_to_balance,
            new_value := new_to_balance },
          { change_type := .NonceUpdate, address := tx.from_address,
            key := none, old_value := current_nonce,
            new_value := u64 (current_nonce + 1) } ]
      error := none }

/-- One step of `BatchProcessor::apply_state_changes`: balance updates are
written under the hard-coded "GCC" token key, nonce updates store the `u64`
reading of the new value, storage updates require a key; other change types
fall through unchanged. -/
def apply_state_change (state : GlobalState) (c : StateChange) : GlobalState :=
  match c.change_type with
  | .BalanceUpdate =>
      { state with
        balances := ainsert state.balances (c.address, gccBytes) c.new_value }
  | .NonceUpdate =>
      { state with
        nonces := ainsert state.nonces c.address (u256ToU64 c.new_value) }
  | .StorageUpdate =>
      match c.key with
      | some k =>
          { state with
            storage := ainsert state.storage (c.address, k) c.new_value }
      | none => state
  | _ => state

/-- `BatchProcessor::apply_state_changes`: apply the deltas in order. -/
def apply_state_changes (state : GlobalState) (changes : List StateChange) :
    GlobalState :=
  changes.foldl apply_state_change state

/-- The byte material `compute_state_root` feeds to the hasher for one
account entry: raw address bytes, the nonce's little-endian `u64` bytes, the
storage root, and the code hash. -/
def accountBytes (e : Address × AccountState) : List Nat :=
  e.1 ++ leBytes 8 e.2.nonce ++ e.2.storage_root ++ e.2.code_hash

/-- The byte material `compute_state_root` feeds to the hasher for one
balance entry: raw address bytes, the token-type string bytes, and the
balance value's 32 little-endian bytes. -/
def balanceBytes (e : (Address × List Nat) × Nat) : List Nat :=
  e.1.1 ++ e.1.2 ++ leBytes 32 e.2

/-- `BatchProcessor::compute_state_root`: a single SHA-256 over all account
entries followed by all balance entries, taken in the `HashMap` iteration
order in which the state carries them (the source iterates the maps
directly, without sorting). -/
def compute_state_root (state : GlobalState) : List Nat :=
  Sha256.sha256
    (state.accounts.flatMap accountBytes ++ state.balances.flatMap balanceBytes)

/-- The result of `BatchProcessor::execute_transactions`: the transactions
that executed, the post-execution state (with its refreshed root), the new
state root, and the total gas used. -/
structure ExecOutcome where
  executed : List Transaction
  state : GlobalState
  state_root : List Nat
  gas_used : Nat
deriving DecidableEq

/-- One iteration of the `execute_transactions` loop: execute, and on
success commit the transaction, accumulate its gas (`u64` addition), and
apply its state changes. -/
def executeStep (acc : List Transaction × GlobalState × Nat)
    (tx : Transaction) : List Transaction × GlobalState × Nat :=
  let r := execute_single_transaction tx acc.2.1
  if r.success then
    (acc.1 ++ [tx], apply_state_changes acc.2.1 r.state_changes,
     u64 (acc.2.2 + r.gas_used))
  else
    acc

/-- `BatchProcessor::execute_transactions`: run the transactions in order
against the working state, then recompute and install the state root. -/
def execute_transactions (txs : List Transaction) (state : GlobalState) :
    ExecOutcome :=
  let folded := txs.foldl executeStep ([], state, 0)
  let root := compute_state_root folded.2.1
  { executed := folded.1
    state := { folded.2.1 with state_root := root }
    state_root := root
    gas_used := folded.2.2 }

/-- `SettlementBatch` of `src/src/settlement/mod.rs` (`fee_paid` is the
`U256` amount of the GCC-denominated fee). -/
structure SettlementBatch where
  batch_id : String
  transactions : List Transaction
  state_root : List Nat
  previous_state_root : List Nat
  merkle_proof : List Nat
  zk_proof : Option (List Nat)
  created_at : Nat
  gas_used : Nat
  fee_paid : Nat
deriving DecidableEq

/-- `BatchProcessor::calculate_total_fee`: sum over the batch of
`U256::from(gas_limit) * gas_price`, with the source's saturating `U256`
arithmetic. -/
def calculate_total_fee (txs : List Transaction) : Nat :=
  txs.foldl (fun total tx => u256Add total (u256Mul tx.gas_limit tx.gas_price)) 0

/-- `BatchProcessor::get_previous_state_root`: the source returns the
constant `vec![0; 32]` (its TODO for reading the last batch's root is
unimplemented). -/
def get_previous_state_root : List Nat := List.replicate 32 0

/-- `BatchProcessor::assemble_batch`: build the `SettlementBatch` from the
committed transactions, the new root, the proof and the gas total; the
previous state root is whatever `get_previous_state_root` supplies. -/
def assemble_batch (txs : List Transaction) (state_root merkle_proof : List Nat)
    (gas_used : Nat) (now : Nat) : SettlementBatch :=
  { batch_id := "batch-" ++ toString now
    transactions := txs
    state_root := state_root
    previous_state_root := get_previous_state_root
    merkle_proof := merkle_proof
    zk_proof := none
    created_at := now
    gas_used := gas_used
    fee_paid := calculate_total_fee txs }

end GhostBridge.BatchProcessor

namespace GhostBridge.StateManager

open GhostBridge

/-- `AccountState` of `src/src/settlement/state_manager.rs`; the two
`SystemTime` fields are carried as `Nat` instants. -/
structure AccountState where
  nonce : Nat
  balances : List (List Nat × Nat)
  storage_root : List Nat
  code_hash : List Nat
  code : Option (List Nat)
  created_at : Nat
  last_updated : Nat
deriving DecidableEq

/-- `L2State` of `state_manager.rs`; maps are association lists in their
iteration order, token-type keys are UTF-8 byte lists. -/
structure L2State where
  state_root : List Nat
  block_number : Nat
  timestamp : Nat
  accounts : List (Address × AccountState)
  storage : List ((Address × Nat) × Nat)
  balances : List ((Address × List Nat) × Nat)
  nonces : List (Address × Nat)
  total_supply : List (List Nat × Nat)
  transaction_count : Nat
  gas_used : Nat
deriving DecidableEq

/-- `StateChangeType` of `state_manager.rs`. -/
inductive StateChangeType
  | AccountCreation
  | AccountDeletion
  | BalanceUpdate
  | NonceUpdate
  | StorageUpdate
  | CodeUpdate
  | SupplyUpdate
deriving DecidableEq

/-- `StateValue` of `state_manager.rs`. -/
inductive StateValue
  | none
  | u256 (v : Nat)
  | bytes (bs : List Nat)
  | address (a : Address)
  | strval (s : List Nat)
  | account (a : AccountState)
deriving DecidableEq

/-- `StateChange` of `state_manager.rs` (the unused `proof` field is
omitted). -/
structure StateChange where
  change_type : StateChangeType
  address : Address
  key : Option Nat
  old_value : StateValue
  new_value : StateValue
deriving DecidableEq

/-- `StateUpdate` of `state_manager.rs`. -/
structure StateUpdate where
  update_id : String
  block_number : Nat
  transaction_id : String
  updates : List StateChange
  gas_used : Nat
  timestamp : Nat
  state_root_before : List Nat
  state_root_after : List Nat
deriving DecidableEq

/-- `StateManager::apply_single_change`: one typed delta applied to the
`L2State` maps (balance and supply updates go to the hard-coded "GCC"
token key, code updates rehash the code with SHA-256, changes whose payload
has the wrong `StateValue` shape fall through unchanged). -/
def apply_single_change (state : L2State) (c : StateChange) : L2State :=
  match c.change_type with
  | .AccountCreation =>
      match c.new_value with
      | .account a => { state with accounts := ainsert state.accounts c.address a }
      | _ => state
  | .AccountDeletion =>
      { state with accounts := aremove state.accounts c.address }
  | .BalanceUpdate =>
      match c.new_value with
      | .u256 v =>
          { state with balances := ainsert state.balances (c.address, gccBytes) v }
      | _ => state
  | .NonceUpdate =>
      match c.new_value with
      | .u256 v => { state with nonces := ainsert state.nonces c.address (u256ToU64 v) }
      | _ => state
  | .StorageUpdate =>
      match c.key, c.new_value with
      | some k, .u256 v =>
          { state with storage := ainsert state.storage (c.address, k) v }
      | _, _ => state
  | .CodeUpdate =>
      match c.new_value with
      | .bytes code =>
          { state with
            accounts := aupdate
              (fun a => { a with code := some code,
                                 code_hash := Sha256.sha256 code })
              state.accounts c.address }
      | _ => state
  | .SupplyUpdate =>
      match c.new_value with
      | .u256 v =>
          { state with total_supply := ainsert state.total_supply gccBytes v }
      | _ => state

/-- `StateManager::apply_state_update`: reject with the state-root-mismatch
settlement error when the update's claimed pre-root differs from the current
root (leaving the state untouched); otherwise apply every delta in sequence
and advance block number, timestamp, transaction count, gas and root. The
pair carries the error, if any, together with the post-call state. -/
def apply_state_update (state : L2State) (update : StateUpdate) :
    Option String × L2State :=
  if state.state_root ≠ update.state_root_before then
    (some "State root mismatch", state)
  else
    let applied := update.updates.foldl apply_single_change state
    (none,
     { applied with
       block_number := update.block_number
       timestamp := update.timestamp
       transaction_count := u64 (applied.transaction_count + 1)
       gas_used := u64 (applied.gas_used + update.gas_used)
       state_root := update.state_root_after })

/-- `StateSnapshot` of `state_manager.rs` (without the derived
`size_bytes`/`compression_ratio` metadata, which no claim reads). -/
structure StateSnapshot where
  snapshot_id : String
  block_number : Nat
  state_root : List Nat
  compressed_state : List Nat
  created_at : Nat
deriving DecidableEq

/-- `StateManager::compress_data`: the source's TODO leaves compression as
the identity on the serialized bytes. -/
def compress_data (data : List Nat) : List Nat := data

/-- `StateManager::decompress_data`: likewise the identity. -/
def decompress_data (data : List Nat) : List Nat := data

end GhostBridge.StateManager

namespace GhostBridge.Codec

open GhostBridge GhostBridge.StateManager

/-- Encode one natural number as one token. -/
def encNat (n : Nat) : List Nat := [n]

/-- Decode one token. -/
def decNat : List Nat → Option (Nat × List Nat)
  | [] => none
  | n :: rest => some (n, rest)

/-- Encode a list: its length, then each element. -/
def encList {α : Type} (enc : α → List Nat) (xs : List α) : List Nat :=
  xs.length :: xs.flatMap enc

/-- Decode a fixed number of elements. -/
def decListGo {α : Type} (dec : List Nat → Option (α × List Nat)) :
    Nat → List Nat → Option (List α × List Nat)
  | 0, l => some ([], l)
  | n + 1, l =>
      match dec l with
      | none => none
      | some (x, l') =>
          match decListGo dec n l' with
          | none => none
          | some (xs, l'') => some (x :: xs, l'')

/-- Decode a length-prefixed list. -/
def decList {α : Type} (dec : List Nat → Option (α × List Nat))
    (l : List Nat) : Option (List α × List Nat) :=
  match decNat l with
  | none => none
  | some (n, l') => decListGo dec n l'

/-- Encode a pair: first component, then second. -/
def encPair {α β : Type} (encA : α → List Nat) (encB : β → List Nat)
    (p : α × β) : List Nat :=
  encA p.1 ++ encB p.2

/-- Decode a pair. -/
def decPair {α β : Type} (decA : List Nat → Option (α × List Nat))
    (decB : List Nat → Option (β × List Nat)) (l : List Nat) :
    Option ((α × β) × List Nat) :=
  match decA l with
  | none => none
  | some (a, l') =>
      match decB l' with
      | none => none
      | some (b, l'') => some ((a, b), l'')

/-- Encode an option with a 0/1 tag. -/
def encOption {α : Type} (enc : α → List Nat) : Option α → List Nat
  | Option.none => [0]
  | Option.some x => 1 :: enc x

/-- Decode a 0/1-tagged option. -/
def decOption {α : Type} (dec : List Nat → Option (α × List Nat)) :
    List Nat → Option (Option α × List Nat)
  | [] => none
  | t :: rest =>
      if t = 0 then some (Option.none, rest)
      else if t = 1 then
        match dec rest with
        | none => none
        | some (x, r) => some (Option.some x, r)
      else none

/-- Byte lists are encoded as token lists. -/
def encBytes (bs : List Nat) : List Nat := encList encNat bs

/-- Decode a byte list. -/
def decBytes (l : List Nat) : Option (List Nat × List Nat) := decList decNat l

end GhostBridge.Codec

namespace GhostBridge.Codec

open GhostBridge GhostBridge.StateManager

/-- Modelled from the spec: `create_snapshot()` "serializes current state"
through the external `serde_json` library (not part of this repository's
sources); the serializer is modelled as an injective token encoding of
`L2State`, field by field in declaration order. -/
def encAccount (a : AccountState) : List Nat :=
  encNat a.nonce ++ encList (encPair encBytes encNat) a.balances ++
  encBytes a.storage_root ++ encBytes a.code_hash ++
  encOption encBytes a.code ++ encNat a.created_at ++ encNat a.last_updated

/-- Modelled from the spec: the matching parser for `encAccount`. -/
def decAccount (l : List Nat) : Option (AccountState × List Nat) := do
  let (nonce, l) ← decNat l
  let (balances, l) ← decList (decPair decBytes decNat) l
  let (storage_root, l) ← decBytes l
  let (code_hash, l) ← decBytes l
  let (code, l) ← decOption decBytes l
  let (created_at, l) ← decNat l
  let (last_updated, l) ← decNat l
  pure ({ nonce, balances, storage_root, code_hash, code,
          created_at, last_updated }, l)

/-- Modelled from the spec: the serialized form of the whole `L2State`,
field by field in declaration order. -/
def encL2State (st : L2State) : List Nat :=
  encBytes st.state_root ++ encNat st.block_number ++ encNat st.timestamp ++
  encList (encPair encBytes encAccount) st.accounts ++
  encList (encPair (encPair encBytes encNat) encNat) st.storage ++
  encList (encPair (encPair encBytes encBytes) encNat) st.balances ++
  encList (encPair encBytes encNat) st.nonces ++
  encList (encPair encBytes encNat) st.total_supply ++
  encNat st.transaction_count ++ encNat st.gas_used

/-- Modelled from the spec: the matching parser for `encL2State`. -/
def decL2State (l : List Nat) : Option (L2State × List Nat) := do
  let (state_root, l) ← decBytes l
  let (block_number, l) ← decNat l
  let (timestamp, l) ← decNat l
  let (accounts, l) ← decList (decPair decBytes decAccount) l
  let (storage, l) ← decList (decPair (decPair decBytes decNat) decNat) l
  let (balances, l) ← decList (decPair (decPair decBytes decBytes) decNat) l
  let (nonces, l) ← decList (decPair decBytes decNat) l
  let (total_supply, l) ← decList (decPair decBytes decNat) l
  let (transaction_count, l) ← decNat l
  let (gas_used, l) ← decNat l
  pure ({ state_root, block_number, timestamp, accounts, storage, balances,
          nonces, total_supply, transaction_count, gas_used }, l)

end GhostBridge.Codec

namespace GhostBridge.StateManager

open GhostBridge GhostBridge.Codec

/-- Modelled from the spec: `serde_json::to_vec(&*state)` in
`create_snapshot` — serialize the whole state. -/
def serialize_state (st : L2State) : List Nat := encL2State st

/-- Modelled from the spec: `serde_json::from_slice(&serialized_state)` in
`restore_from_snapshot` — parse a whole serialized state, rejecting
malformed or trailing input. -/
def deserialize_state (bs : List Nat) : Option L2State :=
  match decL2State bs with
  | some (st, []) => some st
  | _ => none

/-- `StateManager::create_snapshot`: serialize the current state, compress
it (compression is enabled in the initial `StateHistory`), and package the
snapshot with the state's root and block number. -/
def create_snapshot (st : L2State) (now : Nat) : StateSnapshot :=
  { snapshot_id :=
      "snapshot-" ++ toString st.block_number ++ "-" ++ toString now
    block_number := st.block_number
    state_root := st.state_root
    compressed_state := compress_data (serialize_state st)
    created_at := now }

/-- `StateManager::restore_from_snapshot`: decompress and deserialize the
snapshot, and replace the current state wholesale with the result (failing
when deserialization fails). -/
def restore_from_snapshot (snap : StateSnapshot) : Option L2State :=
  deserialize_state (decompress_data snap.compressed_state)

end GhostBridge.StateManager

namespace GhostBridge.Optimistic

open GhostBridge GhostBridge.BatchProcessor

/-- `ChallengeType` of `src/src/settlement/optimistic.rs`. -/
inductive ChallengeType
  | InvalidStateTransition
  | InvalidTransaction
  | InvalidMerkleProof
  | InvalidGasUsage
  | DataAvailability
deriving DecidableEq

/-- `ChallengeStatus` of `optimistic.rs`. -/
inductive ChallengeStatus
  | Pending
  | UnderReview
  | Proven
  | Dismissed
  | Expired
deriving DecidableEq

/-- `ChallengeOutcome` of `optimistic.rs`. -/
inductive ChallengeOutcome
  | ChallengeSuccessful
  | ChallengeFailed
  | NoContest
deriving DecidableEq

/-- `Challenge` of `optimistic.rs`. -/
structure Challenge where
  challenge_id : String
  batch_id : String
  challenger : Address
  challenge_type : ChallengeType
  stake_amount : Nat
  created_at : Nat
  deadline : Nat
  evidence : List Nat
  status : ChallengeStatus
deriving DecidableEq

/-- `ActiveChallenge` of `optimistic.rs` (its `responses` and `arbitrators`
lists are created empty and never written by the source, so they are
omitted). -/
structure ActiveChallenge where
  challenge : Challenge
  resolution_deadline : Nat
deriving DecidableEq

/-- `ChallengeRecord` of `optimistic.rs`. -/
structure ChallengeRecord where
  challenge_id : String
  batch_id : String
  outcome : ChallengeOutcome
  resolved_at : Nat
  slashed_amount : Nat
deriving DecidableEq

/-- `FinalityStatus` of `optimistic.rs`. -/
inductive FinalityStatus
  | Pending
  | Challenged
  | Finalized
  | Reverted
deriving DecidableEq

/-- `StateTransition` of `optimistic.rs`. -/
structure StateTransition where
  batch_id : String
  previous_root : List Nat
  new_root : List Nat
  transactions : List Transaction
  gas_used : Nat
  timestamp : Nat
  validator : Address
deriving DecidableEq

/-- `HistoricalBatch` of `optimistic.rs` (without the execution trace and
validator signatures, which no claim reads). -/
structure HistoricalBatch where
  batch : SettlementBatch
  finality_status : FinalityStatus
deriving DecidableEq

/-- The mutable state of `OptimisticRollup`: the canonical root, the
recorded transitions and batches, and the challenge tracker. -/
structure RollupState where
  current_state_root : List Nat
  state_transitions : List (String × StateTransition)
  batches : List (String × HistoricalBatch)
  active_challenges : List (String × ActiveChallenge)
  challenge_history : List ChallengeRecord
  next_challenge_id : Nat
  pending_challenges : List (String × Challenge)
deriving DecidableEq

/-- `OptimisticRollup::verify_challenge`: the source's TODO stub — it never
re-executes the batch; `InvalidStateTransition` and `InvalidTransaction`
challenges are answered `ChallengeFailed`, every other type `NoContest`. -/
def verify_challenge (c : Challenge) : ChallengeOutcome :=
  match c.challenge_type with
  | .InvalidStateTransition => .ChallengeFailed
  | .InvalidTransaction => .ChallengeFailed
  | _ => .NoContest

/-- `OptimisticRollup::revert_batch`: restore the canonical root to the
recorded transition's previous root and mark the batch `Reverted`. -/
def revert_batch (st : RollupState) (batch_id : String) :
    Except String RollupState :=
  match alookup st.batches batch_id with
  | none => .error "Batch not found for revert"
  | some _hb =>
      match alookup st.state_transitions batch_id with
      | none => .error "State transition not found"
      | some transition =>
          .ok { st with
                current_state_root := transition.previous_root
                batches := aupdate
                  (fun hb => { hb with finality_status := .Reverted })
                  st.batches batch_id }

/-- `OptimisticRollup::handle_successful_challenge`: revert the batch (the
slashing/reward TODOs are unimplemented in the source). -/
def handle_successful_challenge (st : RollupState) (c : Challenge) :
    Except String RollupState :=
  revert_batch st c.batch_id

/-- `OptimisticRollup::handle_failed_challenge`: the challenger-slashing
TODO is unimplemented, so the state is unchanged. -/
def handle_failed_challenge (st : RollupState) (_c : Challenge) :
    Except String RollupState :=
  .ok st

/-- `OptimisticRollup::process_challenge`: look up the active challenge,
verify it, apply the outcome, then retire the challenge into history. -/
def process_challenge (st : RollupState) (challenge_id : String) (now : Nat) :
    Except String (ChallengeOutcome × RollupState) :=
  match alookup st.active_challenges challenge_id with
  | none => .error "Challenge not found"
  | some ac =>
      let challenge := ac.challenge
      let outcome := verify_challenge challenge
      let applied : Except String RollupState :=
        match outcome with
        | .ChallengeSuccessful => handle_successful_challenge st challenge
        | .ChallengeFailed => handle_failed_challenge st challenge
        | .NoContest => .ok st
      match applied with
      | .error e => .error e
      | .ok st1 =>
          .ok (outcome,
               { st1 with
                 active_challenges := aremove st1.active_challenges challenge_id
                 challenge_history := st1.challenge_history ++
                   [{ challenge_id := challenge_id
                      batch_id := challenge.batch_id
                      outcome := outcome
                      resolved_at := now
                      slashed_amount := 0 }] })

end GhostBridge.Optimistic

namespace GhostBridge.Finality

open GhostBridge

/-- `TransactionStatus` of `src/src/settlement/finality.rs`. -/
inductive TransactionStatus
  | Pending
  | Included
  | Confirmed
  | Finalized
  | Failed
  | Replaced
deriving DecidableEq

/-- `MonitoredTransaction` of `finality.rs`. -/
structure MonitoredTransaction where
  tx_hash : String
  batch_id : String
  submitted_at : Nat
  block_number : Option Nat
  block_hash : Option String
  confirmations : Nat
  status : TransactionStatus
deriving DecidableEq

/-- `BlockConfirmation` of `finality.rs`. -/
structure BlockConfirmation where
  block_hash : String
  block_number : Nat
  transaction_hash : String
  confirmations : Nat
  timestamp : Nat
  finalized : Bool
deriving DecidableEq

/-- `ChallengeType` of `finality.rs`. -/
inductive ChallengeType
  | StateTransition
  | DataAvailability
  | InvalidExecution
  | FraudProof
deriving DecidableEq

/-- `ChallengeStatus` of `finality.rs`. -/
inductive ChallengeStatus
  | Open
  | UnderReview
  | Resolved
  | Expired
deriving DecidableEq

/-- `ActiveChallenge` of `finality.rs` (its `responses` list is created
empty and never written by the source, so it is omitted). -/
structure ActiveChallenge where
  challenge_id : String
  batch_id : String
  challenger : Address
  challenge_type : ChallengeType
  submitted_at : Nat
  deadline : Nat
  evidence : List Nat
  status : ChallengeStatus
deriving DecidableEq

/-- `PeriodStatus` of `finality.rs`. -/
inductive PeriodStatus
  | Active
  | Expired
  | Challenged
deriving DecidableEq

/-- `ChallengePeriod` of `finality.rs`. -/
structure ChallengePeriod where
  batch_id : String
  start_time : Nat
  end_time : Nat
  challenge_count : Nat
  period_status : PeriodStatus
deriving DecidableEq

/-- `OutcomeType` of `finality.rs`. -/
inductive OutcomeType
  | ChallengeSuccessful
  | ChallengeFailed
  | Inconclusive
deriving DecidableEq

/-- `RequirementType` of `finality.rs`. -/
inductive RequirementType
  | L1Confirmations
  | ChallengePeriod
  | NoActiveDisputes
  | ConsensusAgreement
deriving DecidableEq

/-- `FinalityRequirement` of `finality.rs`. -/
structure FinalityRequirement where
  requirement_type : RequirementType
  satisfied : Bool
  checked_at : Nat
  details : String
deriving DecidableEq

/-- `PendingFinality` of `finality.rs` (without the floating-point
`finality_progress`, which no decision in the source reads). -/
structure PendingFinality where
  batch_id : String
  submitted_at : Nat
  l1_confirmations : Nat
  challenge_period_end : Nat
  finality_requirements : List FinalityRequirement
deriving DecidableEq

/-- `FinalityType` of `finality.rs`. -/
inductive FinalityType
  | Probabilistic
  | Economic
  | Absolute
deriving DecidableEq

/-- `FinalizedBatch` of `finality.rs`. -/
structure FinalizedBatch where
  batch_id : String
  l1_block_number : Nat
  l1_transaction_hash : String
  gas_used : Nat
  finalized_at : Nat
  finality_type : FinalityType
  confirmation_count : Nat
deriving DecidableEq

/-- `CachedFinalityResult` of `finality.rs`. -/
structure CachedFinalityResult where
  batch_id : String
  finalized : Bool
  finality_type : Option FinalityType
  cached_at : Nat
  expires_at : Nat
deriving DecidableEq

/-- The mutable collections of `FinalityEngine` (L1 monitor, challenge
tracker, finality tracker and cache). -/
structure EngineState where
  current_block : Nat
  monitored_transactions : List (String × MonitoredTransaction)
  active_challenges : List (String × ActiveChallenge)
  challenge_periods : List (String × ChallengePeriod)
  pending_finality : List (String × PendingFinality)
  finalized_batches : List (String × FinalizedBatch)
  cached_finality : List (String × CachedFinalityResult)
deriving DecidableEq

/-- `ConfirmationManager::required_confirmations` as initialized by
`FinalityEngine::new`. -/
def required_confirmations : Nat := 12

/-- `ConfirmationRequirements::fast_finality_threshold` as initialized by
`FinalityEngine::new` (dead data: nothing in the source reads it when
classifying batches). -/
def fast_finality_threshold : Nat := 6

/-- `FinalityEngine::new`: every tracked collection starts empty. -/
def newEngine : EngineState :=
  { current_block := 0
    monitored_transactions := []
    active_challenges := []
    challenge_periods := []
    pending_finality := []
    finalized_batches := []
    cached_finality := [] }

/-- `FinalityEngine::is_batch_finalized`: all stored requirement flags
satisfied, the challenge period over (`now` strictly past its end), and at
least `required_confirmations` L1 confirmations. It reads only the pending
record — never the challenge tracker. -/
def is_batch_finalized (p : PendingFinality) (now : Nat) : Bool :=
  (p.finality_requirements.all fun r => r.satisfied) &&
  decide (p.challenge_period_end < now) &&
  decide (required_confirmations ≤ p.l1_confirmations)

/-- `FinalityEngine::finalize_batch`: the source's TODO stub builds a
`FinalizedBatch` with placeholder L1 data and the hard-coded `Economic`
finality type, caches the result, and returns it; it does not touch the
pending or finalized collections. -/
def finalize_batch (st : EngineState) (batch_id : String) (now : Nat) :
    Option FinalizedBatch × EngineState :=
  let fb : FinalizedBatch :=
    { batch_id := batch_id
      l1_block_number := 0
      l1_transaction_hash := ""
      gas_used := 0
      finalized_at := now
      finality_type := .Economic
      confirmation_count := required_confirmations }
  let cached : CachedFinalityResult :=
    { batch_id := batch_id
      finalized := true
      finality_type := some .Economic
      cached_at := now
      expires_at := now + 3600 }
  (some fb, { st with cached_finality := ainsert st.cached_finality batch_id cached })

/-- `FinalityEngine::check_finalized_batches`: collect the pending batches
that `is_batch_finalized` accepts, then run `finalize_batch` on each. -/
def check_finalized_batches (st : EngineState) (now : Nat) :
    List FinalizedBatch × EngineState :=
  let to_finalize :=
    (st.pending_finality.filter fun e => is_batch_finalized e.2 now).map
      fun e => e.1
  to_finalize.foldl
    (fun acc batch_id =>
      match finalize_batch acc.2 batch_id now with
      | (some fb, st') => (acc.1 ++ [fb], st')
      | (none, st') => (acc.1, st'))
    ([], st)

/-- `FinalityEngine::track_l1_submission`: the source constructs the
monitored-transaction record, the pending-finality record (with its three
requirement flags) and the challenge period — and then drops all three
without storing them anywhere; the engine state is returned unchanged. -/
def track_l1_submission (st : EngineState) (batch_id tx_hash : String)
    (submitted_at challenge_period now : Nat) : EngineState :=
  let _monitored_tx : MonitoredTransaction :=
    { tx_hash := tx_hash
      batch_id := batch_id
      submitted_at := submitted_at
      block_number := none
      block_hash := none
      confirmations := 0
      status := .Pending }
  let _pending : PendingFinality :=
    { batch_id := batch_id
      submitted_at := submitted_at
      l1_confirmations := 0
      challenge_period_end := submitted_at + challenge_period
      finality_requirements :=
        [ { requirement_type := .L1Confirmations, satisfied := false,
            checked_at := now, details := "Waiting for L1 confirmations" },
          { requirement_type := .ChallengePeriod, satisfied := false,
            checked_at := now, details := "Challenge period active" },
          { requirement_type := .NoActiveDisputes, satisfied := true,
            checked_at := now, details := "No active disputes" } ] }
  let _period : ChallengePeriod :=
    { batch_id := batch_id
      start_time := submitted_at
      end_time := submitted_at + challenge_period
      challenge_count := 0
      period_status := .Active }
  st

/-- `FinalityEngine::update_finality_progress`: a TODO stub — no state is
touched. -/
def update_finality_progress (st : EngineState) (_transaction_hash : String)
    (_confirmations : Nat) : EngineState :=
  st

/-- `FinalityEngine::update_l1_confirmation`: builds a `BlockConfirmation`
that is dropped, then calls the no-op progress update. -/
def update_l1_confirmation (st : EngineState) (transaction_hash : String)
    (block_number : Nat) (block_hash : String) (confirmations now : Nat) :
    EngineState :=
  let _block_confirmation : BlockConfirmation :=
    { block_hash := block_hash
      block_number := block_number
      transaction_hash := transaction_hash
      confirmations := confirmations
      timestamp := now
      finalized := decide (required_confirmations ≤ confirmations) }
  update_finality_progress st transaction_hash confirmations

/-- `FinalityEngine::update_finality_for_challenge`: a stub — despite its
comment ("Update finality requirements when challenge is registered") it
changes nothing. -/
def update_finality_for_challenge (st : EngineState) (_batch_id : String) :
    EngineState :=
  st

/-- `FinalityEngine::register_challenge`: builds the `Open` challenge
record (which is dropped — the source never inserts it into
`active_challenges`), bumps the batch's challenge period to `Challenged`
when such a period exists, and calls the no-op requirement update. -/
def register_challenge (st : EngineState) (batch_id : String)
    (challenger : Address) (challenge_type : ChallengeType)
    (evidence : List Nat) (now fraud_proof_window : Nat) :
    String × EngineState :=
  let challenge_id := "challenge-" ++ toString now
  let _challenge : ActiveChallenge :=
    { challenge_id := challenge_id
      batch_id := batch_id
      challenger := challenger
      challenge_type := challenge_type
      submitted_at := now
      deadline := now + fraud_proof_window
      evidence := evidence
      status := .Open }
  let st1 :=
    { st with
      challenge_periods := aupdate
        (fun p => { p with challenge_count := p.challenge_count + 1,
                           period_status := .Challenged })
        st.challenge_periods batch_id }
  (challenge_id, update_finality_for_challenge st1 batch_id)

/-- `FinalityEngine::update_finality_for_resolution`: a stub — changes
nothing. -/
def update_finality_for_resolution (st : EngineState) (_challenge_id : String) :
    EngineState :=
  st

/-- `FinalityEngine::resolve_challenge`: records an outcome value that is
dropped, then calls the no-op resolution update. -/
def resolve_challenge (st : EngineState) (challenge_id : String)
    (_outcome : OutcomeType) (_now : Nat) : EngineState :=
  update_finality_for_resolution st challenge_id

/-- The states of the finality engine reachable through its public
operations. -/
inductive Reachable : EngineState → Prop
  | init : Reachable newEngine
  | track (st : EngineState) (b t : String) (s c n : Nat) :
      Reachable st → Reachable (track_l1_submission st b t s c n)
  | confirm (st : EngineState) (t : String) (bn : Nat) (bh : String)
      (c n : Nat) :
      Reachable st → Reachable (update_l1_confirmation st t bn bh c n)
  | register (st : EngineState) (b : String) (ch : Address)
      (ty : ChallengeType) (e : List Nat) (n w : Nat) :
      Reachable st → Reachable (register_challenge st b ch ty e n w).2
  | resolve (st : EngineState) (c : String) (o : OutcomeType) (n : Nat) :
      Reachable st → Reachable (resolve_challenge st c o n)
  | check (st : EngineState) (n : Nat) :
      Reachable st → Reachable (check_finalized_batches st n).2

end GhostBridge.Finality

namespace GhostBridge.Settlement

open GhostBridge

/-- The admission-pool fields of `TransactionPool` in
`src/src/settlement/mod.rs` that `submit_transaction` reads and writes
(the `processing` table and `last_cleanup` are untouched by admission). -/
structure TransactionPool where
  pending : List Transaction
  priority_queue : List Transaction
  nonce_tracker : List (Address × Nat)
  total_size : Nat
deriving DecidableEq

/-- `L2SettlementEngine::is_meta_transaction`: a TODO stub returning
`false`. -/
def is_meta_transaction (_tx : Transaction) : Bool := false

/-- `L2SettlementEngine::is_security_transaction`: a TODO stub returning
`false`. -/
def is_security_transaction (_tx : Transaction) : Bool := false

/-- `L2SettlementEngine::is_system_transaction`: a TODO stub returning
`false`. -/
def is_system_transaction (_tx : Transaction) : Bool := false

/-- `L2SettlementEngine::validate_transaction`: reject zero amounts, zero
gas limits, and missing signatures on non-meta transactions; `none` means
the transaction passed. -/
def validate_transaction (tx : Transaction) : Option String :=
  if tx.amount = 0 then some "Zero amount transaction"
  else if tx.gas_limit = 0 then some "Zero gas limit"
  else if tx.signature.isNone && !is_meta_transaction tx then
    some "Missing transaction signature"
  else none

/-- `L2SettlementEngine::is_high_priority_transaction`: gas price above the
50 Gwei threshold, or a security/system transaction (both stubs are
`false`). -/
def is_high_priority_transaction (tx : Transaction) : Bool :=
  decide (50000000000 < tx.gas_price) || is_security_transaction tx ||
  is_system_transaction tx

/-- The rejection cases of `submit_transaction` (each is a
`BridgeError::Settlement` with the corresponding message in the source). -/
inductive SubmitError
  | validation (msg : String)
  | securityRejected
  | poolFull
  | invalidNonce (expected got : Nat)
deriving DecidableEq

/-- `L2SettlementEngine::submit_transaction`: validate, consult the
external policy/security gate (an out-of-scope collaborator, §6 of the
spec, passed here as the predicate it amounts to at this boundary), check
pool capacity, require the nonce to be exactly the tracked nonce plus one
(tracked nonces start absent, read as 0), then enqueue into the priority or
FIFO lane, record the nonce, and grow the pool. Returns the transaction id
and the post-call pool. -/
def submit_transaction (max_pending_transactions : Nat)
    (security_approved : Transaction → Bool) (pool : TransactionPool)
    (tx : Transaction) : Except SubmitError String × TransactionPool :=
  match validate_transaction tx with
  | some msg => (.error (.validation msg), pool)
  | none =>
    if !security_approved tx then (.error .securityRejected, pool)
    else if max_pending_transactions ≤ pool.total_size then
      (.error .poolFull, pool)
    else
      let expected_nonce := (alookup pool.nonce_tracker tx.from_address).getD 0 + 1
      if tx.nonce ≠ expected_nonce then
        (.error (.invalidNonce expected_nonce tx.nonce), pool)
      else
        let pool1 :=
          if is_high_priority_transaction tx then
            { pool with priority_queue := pool.priority_queue ++ [tx] }
          else
            { pool with pending := pool.pending ++ [tx] }
        (.ok tx.id,
         { pool1 with
           nonce_tracker := ainsert pool1.nonce_tracker tx.from_address tx.nonce
           total_size := pool1.total_size + 1 })

end GhostBridge.Settlement

namespace GhostBridge.Samples

open GhostBridge GhostBridge.BatchProcessor

/-- A sample 20-byte address. -/
def addr1 : Address := 1 :: List.replicate 19 0

/-- A second sample address. -/
def addr2 : Address := 2 :: List.replicate 19 0

/-- A third sample address (a challenger). -/
def addr3 : Address := 3 :: List.replicate 19 0

/-- The batch processor's genesis `GlobalState`. -/
def emptyGlobal : GlobalState :=
  { state_root := List.replicate 32 0
    accounts := []
    storage := []
    nonces := []
    balances := [] }

/-- A global state whose balance map holds two entries, presented in one
iteration order. -/
def globalAB : GlobalState :=
  { emptyGlobal with
    balances := [((addr1, gccBytes), 5), ((addr2, gccBytes), 7)] }

/-- The same balance-map contents presented in the other iteration order. -/
def globalBA : GlobalState :=
  { emptyGlobal with
    balances := [((addr2, gccBytes), 7), ((addr1, gccBytes), 5)] }

/-- A transfer of amount zero: admissible to `process_batch` (validation
checks signature and gas bounds, not the amount) and executable (a zero
amount never exceeds the sender balance). -/
def txZeroAmount : Transaction :=
  { id := "tx-zero"
    from_address := addr1
    to_address := addr2
    amount_token := .Gcc
    amount := 0
    nonce := 1
    gas_limit := 30000
    gas_price := 1
    data := []
    signature := some (List.replicate 65 0) }

/-- A funded transfer of amount 5 with a two-byte payload. -/
def txTransfer : Transaction :=
  { id := "tx-1"
    from_address := addr1
    to_address := addr2
    amount_token := .Gcc
    amount := 5
    nonce := 1
    gas_limit := 30000
    gas_price := 1
    data := [0, 1]
    signature := some (List.replicate 65 0) }

/-- A global state funding `txTransfer`'s sender with balance 10. -/
def globalFunded : GlobalState :=
  { emptyGlobal with balances := [((addr1, gccBytes), 10)] }

end GhostBridge.Samples

namespace GhostBridge.Samples

open GhostBridge GhostBridge.StateManager

/-- The genesis `L2State` built by `StateManager::new`. -/
def l2Genesis : L2State :=
  { state_root := List.replicate 32 0
    block_number := 0
    timestamp := 0
    accounts := []
    storage := []
    balances := []
    nonces := []
    total_supply := []
    transaction_count := 0
    gas_used := 0 }

/-- A well-formed state update whose claimed pre-root is the genesis root. -/
def updMatching : StateUpdate :=
  { update_id := "update-1"
    block_number := 1
    transaction_id := "tx-1"
    updates :=
      [ { change_type := .BalanceUpdate
          address := addr1
          key := none
          old_value := .u256 0
          new_value := .u256 42 } ]
    gas_used := 21000
    timestamp := 7
    state_root_before := List.replicate 32 0
    state_root_after := List.replicate 32 1 }

/-- The same update with a wrong claimed pre-root. -/
def updMismatched : StateUpdate :=
  { updMatching with update_id := "update-2"
                     state_root_before := List.replicate 32 9 }

end GhostBridge.Samples

namespace GhostBridge.Samples

open GhostBridge GhostBridge.BatchProcessor GhostBridge.Optimistic

/-- A sample settlement batch whose claimed root differs from the correct
re-derived one. -/
def batchSample : SettlementBatch :=
  { batch_id := "batch-1"
    transactions := [txTransfer]
    state_root := List.replicate 32 2
    previous_state_root := List.replicate 32 0
    merkle_proof := List.replicate 32 0
    zk_proof := none
    created_at := 0
    gas_used := 21000
    fee_paid := 30000 }

/-- A fraud challenge against `batchSample` whose evidence claims a
different correct final balance for the sender. -/
def challengeSample : Challenge :=
  { challenge_id := "challenge-1"
    batch_id := "batch-1"
    challenger := addr3
    challenge_type := .InvalidStateTransition
    stake_amount := 100000000000000000000
    created_at := 0
    deadline := 86400
    evidence := [1, 2, 3]
    status := .Pending }

/-- A rollup state holding `batchSample` (submitted, with its recorded
transition) and the open `challengeSample` against it. -/
def rollupWithChallenge : RollupState :=
  { current_state_root := List.replicate 32 2
    state_transitions :=
      [("batch-1",
        { batch_id := "batch-1"
          previous_root := List.replicate 32 0
          new_root := List.replicate 32 2
          transactions := [txTransfer]
          gas_used := 21000
          timestamp := 0
          validator := List.replicate 20 0 })]
    batches :=
      [("batch-1", { batch := batchSample, finality_status := .Pending })]
    active_challenges :=
      [("challenge-1",
        { challenge := challengeSample, resolution_deadline := 86400 })]
    challenge_history := []
    next_challenge_id := 2
    pending_challenges := [("challenge-1", challengeSample)] }

end GhostBridge.Samples

namespace GhostBridge.Samples

open GhostBridge GhostBridge.Finality

/-- A satisfied finality requirement of the given type. -/
def reqSatisfied (t : RequirementType) : FinalityRequirement :=
  { requirement_type := t
    satisfied := true
    checked_at := 0
    details := "" }

/-- A pending-finality record whose stored requirement flags are all
satisfied, with 12 L1 confirmations and a challenge period that ends at
instant 10. -/
def pendingSatisfied : PendingFinality :=
  { batch_id := "batch-1"
    submitted_at := 0
    l1_confirmations := 12
    challenge_period_end := 10
    finality_requirements :=
      [ reqSatisfied .L1Confirmations
      , reqSatisfied .ChallengePeriod
      , reqSatisfied .NoActiveDisputes ] }

/-- The same record at only 6 L1 confirmations. -/
def pendingSixConfs : PendingFinality :=
  { pendingSatisfied with l1_confirmations := 6 }

/-- An engine state carrying `pendingSatisfied` in its pending-finality
collection. -/
def engineWithPending : EngineState :=
  { newEngine with pending_finality := [("batch-1", pendingSatisfied)] }

end GhostBridge.Samples

namespace GhostBridge.Samples

open GhostBridge GhostBridge.Settlement

/-- The empty admission pool built by `L2SettlementEngine::new`. -/
def emptyPool : TransactionPool :=
  { pending := []
    priority_queue := []
    nonce_tracker := []
    total_size := 0 }

/-- A duplicate of `txTransfer`: same sender, same nonce 1, fresh id. -/
def txNonce1Dup : Transaction := { txTransfer with id := "tx-2" }

/-- The sender's follow-up transaction with nonce 2. -/
def txNonce2 : Transaction := { txTransfer with id := "tx-3", nonce := 2 }

end GhostBridge.Samples

namespace GhostBridge.Samples

open GhostBridge GhostBridge.Optimistic

/-- The rollup state `process_challenge` leaves behind after resolving
`challengeSample` on `rollupWithChallenge` at instant 50. -/
def rollupAfterChallenge : RollupState :=
  { rollupWithChallenge with
    active_challenges := []
    challenge_history :=
      [{ challenge_id := "challenge-1"
         batch_id := "batch-1"
         outcome := .ChallengeFailed
         resolved_at := 50
         slashed_amount := 0 }] }

end GhostBridge.Samples

/-! ## Lemmas and theorems -/

example : GhostBridge.Sha256.sha256 [] =
    [227, 176, 196, 66, 152, 252, 28, 20,
     154, 251, 244, 200, 153, 111, 185, 36,
     39, 174, 65, 228, 100, 155, 147, 76,
     164, 149, 153, 27, 120, 82, 184, 85] := by decide

example : GhostBridge.Sha256.sha256 [97, 98, 99] =
    [186, 120, 22, 191, 143, 1, 207, 234,
     65, 65, 64, 222, 93, 174, 34, 35,
     176, 3, 97, 163, 150, 23, 122, 156,
     180, 16, 255, 97, 242, 0, 21, 173] := by decide

namespace GhostBridge.Codec

open GhostBridge GhostBridge.StateManager

theorem decNat_enc (n : Nat) (r : List Nat) : decNat (encNat n ++ r) = some (n, r) := rfl

theorem decListGo_enc {α : Type} {enc : α → List Nat}
    {dec : List Nat → Option (α × List Nat)}
    (h : ∀ x r, dec (enc x ++ r) = some (x, r)) :
    ∀ (xs : List α) (r : List Nat),
      decListGo dec xs.length (xs.flatMap enc ++ r) = some (xs, r) := by
  intro xs
  induction xs with
  | nil => intro r; rfl
  | cons x xs ih =>
      intro r
      simp only [List.length_cons, List.flatMap_cons, List.append_assoc,
        decListGo, h, ih]

theorem decList_enc {α : Type} {enc : α → List Nat}
    {dec : List Nat → Option (α × List Nat)}
    (h : ∀ x r, dec (enc x ++ r) = some (x, r)) (xs : List α) (r : List Nat) :
    decList dec (encList enc xs ++ r) = some (xs, r) := by
  simp only [encList, decList, List.cons_append, decNat, decListGo_enc h]

theorem decPair_enc {α β : Type} {encA : α → List Nat} {encB : β → List Nat}
    {decA : List Nat → Option (α × List Nat)}
    {decB : List Nat → Option (β × List Nat)}
    (hA : ∀ x r, decA (encA x ++ r) = some (x, r))
    (hB : ∀ x r, decB (encB x ++ r) = some (x, r)) (p : α × β) (r : List Nat) :
    decPair decA decB (encPair encA encB p ++ r) = some (p, r) := by
  simp only [encPair, decPair, List.append_assoc, hA, hB]

theorem decOption_enc {α : Type} {enc : α → List Nat}
    {dec : List Nat → Option (α × List Nat)}
    (h : ∀ x r, dec (enc x ++ r) = some (x, r)) (o : Option α) (r : List Nat) :
    decOption dec (encOption enc o ++ r) = some (o, r) := by
  cases o with
  | none => rfl
  | some x => simp only [encOption, decOption, List.cons_append, h]; rfl

theorem decBytes_enc (bs : List Nat) (r : List Nat) :
    decBytes (encBytes bs ++ r) = some (bs, r) :=
  decList_enc decNat_enc bs r

theorem decAccount_enc (a : AccountState) (r : List Nat) :
    decAccount (encAccount a ++ r) = some (a, r) := by
  simp only [encAccount, List.append_assoc, decAccount, decNat_enc,
    decList_enc (decPair_enc decBytes_enc decNat_enc), decBytes_enc,
    decOption_enc decBytes_enc, Option.bind_eq_bind, Option.some_bind]
  rfl

theorem decL2State_enc (st : L2State) (r : List Nat) :
    decL2State (encL2State st ++ r) = some (st, r) := by
  simp only [encL2State, List.append_assoc, decL2State, decNat_enc,
    decBytes_enc, decList_enc (decPair_enc decBytes_enc decAccount_enc),
    decList_enc (decPair_enc (decPair_enc decBytes_enc decNat_enc) decNat_enc),
    decList_enc (decPair_enc (decPair_enc decBytes_enc decBytes_enc) decNat_enc),
    decList_enc (decPair_enc decBytes_enc decNat_enc),
    Option.bind_eq_bind, Option.some_bind]
  rfl

end GhostBridge.Codec

namespace GhostBridge.BatchProcessor

open GhostBridge GhostBridge.Samples

set_option maxRecDepth 40000 in
/-- C1: the claim that `compute_state_root` is a deterministic,
iteration-order-independent function of the state's account and balance
contents fails on the code: the function hashes the `HashMap` entries in
whatever iteration order the map presents (it never sorts), so the same
balance contents presented in two different iteration orders — as two runs
of the process will do — produce state roots that differ byte-for-byte. -/
theorem c1_state_root_order_dependent :
    globalBA.balances = globalAB.balances.reverse ∧
    globalBA.accounts = globalAB.accounts ∧
    compute_state_root globalAB ≠ compute_state_root globalBA := by
  refine ⟨rfl, rfl, ?_⟩
  decide

/-- C2: the claim that `assemble_batch` sets `previous_state_root` to the
committed root of the immediately preceding batch fails on the code:
`get_previous_state_root` is a TODO stub returning the constant
`vec![0; 32]`, so every assembled batch carries 32 zero bytes as its
previous root, regardless of any earlier batch's state root. -/
theorem c2_previous_state_root_constant
    (txs : List Transaction) (state_root merkle_proof : List Nat)
    (gas_used now : Nat) :
    (assemble_batch txs state_root merkle_proof gas_used now).previous_state_root
      = List.replicate 32 0 :=
  rfl

end GhostBridge.BatchProcessor

namespace GhostBridge.StateManager

open GhostBridge GhostBridge.Codec

/-- C8: creating a snapshot and immediately restoring from it recovers the
state exactly — serialize, compress, decompress, deserialize round-trips —
so in particular the restored state's root is identical to the
pre-snapshot root. -/
theorem c8_snapshot_roundtrip (st : L2State) (now : Nat) :
    restore_from_snapshot (create_snapshot st now) = some st ∧
    (restore_from_snapshot (create_snapshot st now)).map (fun s => s.state_root)
      = some st.state_root := by
  have h : restore_from_snapshot (create_snapshot st now) = some st := by
    show deserialize_state (encL2State st) = some st
    unfold deserialize_state
    rw [← List.append_nil (encL2State st), decL2State_enc]
  exact ⟨h, by rw [h]; rfl⟩

end GhostBridge.StateManager

namespace GhostBridge.Finality

open GhostBridge

/-- C7: the claim that the finality evaluation reports the Probabilistic
tier at 6 confirmations and the Economic tier at 12 fails on the code: no
code path evaluates the tier rules (they are dead initialization data) —
`is_batch_finalized` rejects every record below the 12 required
confirmations, so a batch at exactly 6 confirmations is simply not
finalized and no Probabilistic tier is ever reported, and whatever batch
`finalize_batch` does emit is labeled `Economic` unconditionally. -/
theorem c7_no_probabilistic_tier :
    (∀ (p : PendingFinality) (now : Nat),
        p.l1_confirmations = 6 → is_batch_finalized p now = false) ∧
    (∀ (st : EngineState) (batch_id : String) (now : Nat),
        ((finalize_batch st batch_id now).1).map (fun fb => fb.finality_type)
          = some FinalityType.Economic) := by
  constructor
  · intro p now h
    simp [is_batch_finalized, required_confirmations, h]
  · intro st b now
    rfl

/-- Witness for C7 at a concrete pending record: 6 confirmations, no
active challenge, all stored requirement flags satisfied, challenge period
long expired — still not classified finalized; and the finalization stub
labels batches `Economic`. -/
theorem c7_no_probabilistic_tier_witness :
    is_batch_finalized Samples.pendingSixConfs 42 = false ∧
    ((finalize_batch Samples.engineWithPending "batch-1" 42).1).map
        (fun fb => fb.finality_type) = some FinalityType.Economic :=
  ⟨c7_no_probabilistic_tier.1 Samples.pendingSixConfs 42 rfl,
   c7_no_probabilistic_tier.2 Samples.engineWithPending "batch-1" 42⟩

end GhostBridge.Finality

namespace GhostBridge.Optimistic

open GhostBridge

/-- C4: the claim that `process_challenge` re-derives the state transition
and answers `ChallengeSuccessful` (reverting the canonical root) on a
mismatch fails on the code: `verify_challenge` is a TODO stub that never
re-executes anything and never returns `ChallengeSuccessful` — whatever
the challenge and however wrong the batch's claimed root, the outcome is
`ChallengeFailed` or `NoContest` and the canonical state root is left
untouched. -/
theorem c4_process_challenge_never_successful (st : RollupState)
    (cid : String) (now : Nat) (oc : ChallengeOutcome) (st' : RollupState)
    (h : process_challenge st cid now = Except.ok (oc, st')) :
    oc ≠ ChallengeOutcome.ChallengeSuccessful ∧
    st'.current_state_root = st.current_state_root := by
  unfold process_challenge at h
  cases hl : alookup st.active_challenges cid with
  | none => rw [hl] at h; exact absurd h (by simp)
  | some ac =>
      rw [hl] at h
      cases hty : ac.challenge.challenge_type <;>
        simp only [verify_challenge, hty, handle_failed_challenge,
          Except.ok.injEq, Prod.mk.injEq] at h <;>
        exact ⟨by rw [← h.1]; simp, by rw [← h.2]⟩

/-- Witness for C4: a concrete rollup state holding a submitted batch whose
claimed root is wrong and an open `InvalidStateTransition` challenge with
evidence for a different correct balance — `process_challenge` still
answers `ChallengeFailed` and the canonical root does not revert. -/
theorem c4_process_challenge_never_successful_witness :
    ChallengeOutcome.ChallengeFailed ≠ ChallengeOutcome.ChallengeSuccessful ∧
    Samples.rollupAfterChallenge.current_state_root
      = Samples.rollupWithChallenge.current_state_root :=
  c4_process_challenge_never_successful Samples.rollupWithChallenge
    "challenge-1" 50 ChallengeOutcome.ChallengeFailed
    Samples.rollupAfterChallenge (by rfl)

end GhostBridge.Optimistic

namespace GhostBridge.StateManager

/-- A single delta never touches the scalar bookkeeping fields: root, block
number, timestamp, transaction count and gas are left to
`apply_state_update` itself. -/
theorem apply_single_change_scalars (s : L2State) (c : StateChange) :
    (apply_single_change s c).state_root = s.state_root ∧
    (apply_single_change s c).block_number = s.block_number ∧
    (apply_single_change s c).timestamp = s.timestamp ∧
    (apply_single_change s c).transaction_count = s.transaction_count ∧
    (apply_single_change s c).gas_used = s.gas_used := by
  obtain ⟨ct, addr, key, ov, nv⟩ := c
  cases ct <;> cases nv <;> (try cases key) <;> exact ⟨rfl, rfl, rfl, rfl, rfl⟩

/-- Folding deltas keeps the scalar bookkeeping fields unchanged. -/
theorem foldl_apply_single_change_scalars (cs : List StateChange)
    (s : L2State) :
    ((cs.foldl apply_single_change s).state_root = s.state_root) ∧
    ((cs.foldl apply_single_change s).block_number = s.block_number) ∧
    ((cs.foldl apply_single_change s).timestamp = s.timestamp) ∧
    ((cs.foldl apply_single_change s).transaction_count = s.transaction_count) ∧
    ((cs.foldl apply_single_change s).gas_used = s.gas_used) := by
  induction cs generalizing s with
  | nil => exact ⟨rfl, rfl, rfl, rfl, rfl⟩
  | cons c cs ih =>
      have h := apply_single_change_scalars s c
      have h2 := ih (apply_single_change s c)
      exact ⟨h2.1.trans h.1, (h2.2.1).trans h.2.1, (h2.2.2.1).trans h.2.2.1,
             (h2.2.2.2.1).trans h.2.2.2.1, (h2.2.2.2.2).trans h.2.2.2.2⟩

/-- C3: `apply_state_update` fails with the state-root-mismatch error
exactly when the update's claimed pre-root differs from the current root,
and on that error the state is left completely unchanged; when the roots
match, every listed delta is applied in sequence to the maps and the block
number, timestamp, transaction count, gas and state root advance to the
update's claimed values. -/
theorem c3_apply_state_update_spec (st : L2State) (u : StateUpdate) :
    ((apply_state_update st u).1.isSome ↔ st.state_root ≠ u.state_root_before) ∧
    (st.state_root ≠ u.state_root_before →
       apply_state_update st u = (some "State root mismatch", st)) ∧
    (st.state_root = u.state_root_before →
       (apply_state_update st u).1 = none ∧
       (apply_state_update st u).2.block_number = u.block_number ∧
       (apply_state_update st u).2.state_root = u.state_root_after ∧
       (apply_state_update st u).2.timestamp = u.timestamp ∧
       (apply_state_update st u).2.transaction_count
         = u64 (st.transaction_count + 1) ∧
       (apply_state_update st u).2.gas_used = u64 (st.gas_used + u.gas_used) ∧
       (apply_state_update st u).2.accounts
         = (u.updates.foldl apply_single_change st).accounts ∧
       (apply_state_update st u).2.balances
         = (u.updates.foldl apply_single_change st).balances ∧
       (apply_state_update st u).2.nonces
         = (u.updates.foldl apply_single_change st).nonces ∧
       (apply_state_update st u).2.storage
         = (u.updates.foldl apply_single_change st).storage ∧
       (apply_state_update st u).2.total_supply
         = (u.updates.foldl apply_single_change st).total_supply) := by
  by_cases hr : st.state_root = u.state_root_before
  · have hfold := foldl_apply_single_change_scalars u.updates st
    refine ⟨?_, fun hne => absurd hr hne, fun _ => ?_⟩
    · simp [apply_state_update, hr]
    · refine ⟨?_, ?_, ?_, ?_, ?_, ?_, ?_, ?_, ?_, ?_, ?_⟩ <;>
        simp [apply_state_update, hr, hfold.2.2.2.1, hfold.2.2.2.2]
  · refine ⟨?_, fun _ => ?_, fun heq => absurd heq hr⟩
    · simp [apply_state_update, hr]
    · simp [apply_state_update, hr]

/-- Witness for C3 at the genesis state: the mismatched update is rejected
with the state untouched; the matching update is accepted and advances
block number and root to the claimed values. -/
theorem c3_apply_state_update_spec_witness :
    apply_state_update Samples.l2Genesis Samples.updMismatched
      = (some "State root mismatch", Samples.l2Genesis) ∧
    (apply_state_update Samples.l2Genesis Samples.updMatching).1 = none ∧
    (apply_state_update Samples.l2Genesis Samples.updMatching).2.block_number
      = 1 ∧
    (apply_state_update Samples.l2Genesis Samples.updMatching).2.state_root
      = List.replicate 32 1 :=
  have hm := c3_apply_state_update_spec Samples.l2Genesis Samples.updMismatched
  have hg := c3_apply_state_update_spec Samples.l2Genesis Samples.updMatching
  have hgood := hg.2.2 (by decide)
  ⟨hm.2.1 (by decide), hgood.1, hgood.2.1, by rw [hgood.2.2.1]; rfl⟩

end GhostBridge.StateManager

namespace GhostBridge

/-- Looking up a key right after inserting it yields the inserted value. -/
theorem alookup_ainsert_self {α β : Type} [DecidableEq α]
    (m : List (α × β)) (k : α) (v : β) : alookup (ainsert m k v) k = some v := by
  induction m with
  | nil => simp [ainsert, alookup]
  | cons p m ih =>
      obtain ⟨a, b⟩ := p
      by_cases h : a = k
      · simp [ainsert, alookup, h]
      · simp [ainsert, alookup, h, ih]

end GhostBridge

namespace GhostBridge.Settlement

open GhostBridge

/-- C5: a transaction is accepted by `submit_transaction` only when its
nonce is exactly the sender's tracked nonce plus one (tracked nonces start
at 0), and acceptance stores the transaction's nonce as the new tracked
nonce; consequently a duplicate of an accepted nonce is rejected with the
explicit nonce-mismatch error while the successor nonce is accepted. -/
theorem c5_submit_transaction_nonce_discipline (maxP : Nat)
    (sec : Transaction → Bool) (pool : TransactionPool) (tx : Transaction)
    (id : String) (pool1 : TransactionPool)
    (h : submit_transaction maxP sec pool tx = (Except.ok id, pool1)) :
    tx.nonce = (alookup pool.nonce_tracker tx.from_address).getD 0 + 1 ∧
    alookup pool1.nonce_tracker tx.from_address = some tx.nonce ∧
    pool1.total_size = pool.total_size + 1 ∧
    (∀ tx2 : Transaction, tx2.from_address = tx.from_address →
       tx2.nonce = tx.nonce → validate_transaction tx2 = none →
       sec tx2 = true → pool1.total_size < maxP →
       submit_transaction maxP sec pool1 tx2
         = (Except.error (SubmitError.invalidNonce (tx.nonce + 1) tx2.nonce),
            pool1)) ∧
    (∀ tx3 : Transaction, tx3.from_address = tx.from_address →
       tx3.nonce = tx.nonce + 1 → validate_transaction tx3 = none →
       sec tx3 = true → pool1.total_size < maxP →
       (submit_transaction maxP sec pool1 tx3).1 = Except.ok tx3.id) := by
  unfold submit_transaction at h
  cases hv : validate_transaction tx with
  | some msg => rw [hv] at h; exact absurd h (by simp)
  | none =>
    rw [hv] at h
    cases hs : sec tx with
    | false => rw [hs] at h; exact absurd h (by simp)
    | true =>
      rw [hs] at h
      simp only [Bool.not_true, Bool.false_eq_true, if_false] at h
      by_cases hc : maxP ≤ pool.total_size
      · rw [if_pos hc] at h; exact absurd h (by simp)
      · rw [if_neg hc] at h
        by_cases hn :
            tx.nonce ≠ (alookup pool.nonce_tracker tx.from_address).getD 0 + 1
        · rw [if_pos hn] at h; exact absurd h (by simp)
        · rw [if_neg hn] at h
          rw [Prod.mk.injEq] at h
          obtain ⟨-, h2⟩ := h
          have hne : ¬ tx.nonce = tx.nonce + 1 := by omega
          have htrack : pool1.nonce_tracker
              = ainsert pool.nonce_tracker tx.from_address tx.nonce := by
            rw [← h2]
            by_cases hp : is_high_priority_transaction tx <;> simp [hp]
          have hsize : pool1.total_size = pool.total_size + 1 := by
            rw [← h2]
            by_cases hp : is_high_priority_transaction tx <;> simp [hp]
          have hlook : alookup pool1.nonce_tracker tx.from_address
              = some tx.nonce := by
            rw [htrack]; exact alookup_ainsert_self _ _ _
          refine ⟨by omega, hlook, hsize, ?_, ?_⟩
          · intro tx2 hfrom2 hnonce2 hval2 hsec2 hcap2
            have : ¬ maxP ≤ pool1.total_size := by omega
            simp [submit_transaction, hval2, hsec2, this, hfrom2, hlook,
              hnonce2, hne]
          · intro tx3 hfrom3 hnonce3 hval3 hsec3 hcap3
            have : ¬ maxP ≤ pool1.total_size := by omega
            simp [submit_transaction, hval3, hsec3, this, hfrom3, hlook,
              hnonce3]

/-- Witness for C5: on the empty pool, `txTransfer` (nonce 1) is accepted;
its duplicate with the same nonce is rejected with the nonce-mismatch
error, and the follow-up with nonce 2 is accepted. -/
theorem c5_submit_transaction_nonce_discipline_witness :
    Samples.txTransfer.nonce
      = (alookup Samples.emptyPool.nonce_tracker
           Samples.txTransfer.from_address).getD 0 + 1 ∧
    submit_transaction 100000 (fun _ => true)
        (submit_transaction 100000 (fun _ => true) Samples.emptyPool
           Samples.txTransfer).2 Samples.txNonce1Dup
      = (Except.error (SubmitError.invalidNonce 2 1),
         (submit_transaction 100000 (fun _ => true) Samples.emptyPool
            Samples.txTransfer).2) ∧
    (submit_transaction 100000 (fun _ => true)
        (submit_transaction 100000 (fun _ => true) Samples.emptyPool
           Samples.txTransfer).2 Samples.txNonce2).1
      = Except.ok "tx-3" := by
  have h := c5_submit_transaction_nonce_discipline 100000 (fun _ => true)
    Samples.emptyPool Samples.txTransfer "tx-1"
    (submit_transaction 100000 (fun _ => true) Samples.emptyPool
       Samples.txTransfer).2 (by rfl)
  refine ⟨h.1, ?_, ?_⟩
  · have := h.2.2.2.1 Samples.txNonce1Dup rfl rfl (by rfl) rfl (by decide)
    exact this
  · have := h.2.2.2.2 Samples.txNonce2 rfl rfl (by rfl) rfl (by decide)
    exact this

end GhostBridge.Settlement

namespace GhostBridge.Finality

open GhostBridge

/-- The finalization fold inside `check_finalized_batches`: it emits one
stub `Economic` record per selected batch id and only the finality cache of
the threaded state changes. -/
theorem check_fold_spec (ids : List String) (st : EngineState) (now : Nat)
    (acc : List FinalizedBatch) :
    (ids.foldl
      (fun acc batch_id =>
        match finalize_batch acc.2 batch_id now with
        | (some fb, st') => (acc.1 ++ [fb], st')
        | (none, st') => (acc.1, st')) (acc, st)).1
      = acc ++ ids.map (fun b =>
          { batch_id := b
            l1_block_number := 0
            l1_transaction_hash := ""
            gas_used := 0
            finalized_at := now
            finality_type := FinalityType.Economic
            confirmation_count := required_confirmations }) ∧
    (ids.foldl
      (fun acc batch_id =>
        match finalize_batch acc.2 batch_id now with
        | (some fb, st') => (acc.1 ++ [fb], st')
        | (none, st') => (acc.1, st')) (acc, st)).2.pending_finality
      = st.pending_finality := by
  induction ids generalizing st acc with
  | nil => simp
  | cons b ids ih =>
      have h := ih ({ st with cached_finality := ainsert st.cached_finality b ({ batch_id := b, finalized := true, finality_type := some FinalityType.Economic, cached_at := now, expires_at := now + 3600 }) }) (acc ++ [({ batch_id := b, l1_block_number := 0, l1_transaction_hash := "", gas_used := 0, finalized_at := now, finality_type := FinalityType.Economic, confirmation_count := required_confirmations })])
      simp only [List.foldl_cons, List.map_cons, finalize_batch] at h ⊢
      exact ⟨by rw [h.1]; simp, h.2⟩

/-- The list returned by `check_finalized_batches` is determined by the
pending-finality collection alone. -/
theorem check_finalized_batches_fst (st : EngineState) (now : Nat) :
    (check_finalized_batches st now).1
      = ((st.pending_finality.filter fun e => is_batch_finalized e.2 now).map
          fun e => e.1).map (fun b =>
          { batch_id := b
            l1_block_number := 0
            l1_transaction_hash := ""
            gas_used := 0
            finalized_at := now
            finality_type := FinalityType.Economic
            confirmation_count := required_confirmations }) := by
  have h := check_fold_spec
    ((st.pending_finality.filter fun e => is_batch_finalized e.2 now).map
      fun e => e.1) st now []
  exact h.1

/-- `check_finalized_batches` leaves the pending collection alone. -/
theorem check_finalized_batches_pending (st : EngineState) (now : Nat) :
    (check_finalized_batches st now).2.pending_finality
      = st.pending_finality :=
  (check_fold_spec _ st now []).2

/-- C6: the claim that registering a challenge makes the no-active-disputes
finality requirement unsatisfied (blocking finality) until resolution fails
on the code: `register_challenge` drops the challenge record it builds
(nothing is ever inserted into the engine's challenge collection),
`update_finality_for_challenge` is a no-op, and `is_batch_finalized` reads
only the pending record's stored flags — so registering a challenge changes
neither the challenge collection, nor the pending records, nor which
batches `check_finalized_batches` classifies as finalized; concretely, a
batch whose stored requirement flags are satisfied is still reported
finalized right after an `Open` challenge is registered against it. -/
theorem c6_register_challenge_no_finality_effect :
    (∀ (st : EngineState) (b : String) (ch : Address) (ty : ChallengeType)
        (e : List Nat) (n w : Nat),
        ((register_challenge st b ch ty e n w).2.active_challenges
           = st.active_challenges) ∧
        ((register_challenge st b ch ty e n w).2.pending_finality
           = st.pending_finality) ∧
        (∀ now2 : Nat,
          (check_finalized_batches (register_challenge st b ch ty e n w).2
              now2).1
            = (check_finalized_batches st now2).1)) ∧
    (check_finalized_batches
        (register_challenge Samples.engineWithPending "batch-1" Samples.addr3
           ChallengeType.StateTransition [1, 2, 3] 5 86400).2 42).1
      = [{ batch_id := "batch-1"
           l1_block_number := 0
           l1_transaction_hash := ""
           gas_used := 0
           finalized_at := 42
           finality_type := FinalityType.Economic
           confirmation_count := 12 }] := by
  constructor
  · intro st b ch ty e n w
    refine ⟨rfl, rfl, fun now2 => ?_⟩
    rw [check_finalized_batches_fst, check_finalized_batches_fst]
    rfl
  · rw [check_finalized_batches_fst]
    rfl

/-- C10: `track_l1_submission` constructs its monitored-transaction,
pending-finality and challenge-period records and drops them without
storing anything — the engine state is returned unchanged — and therefore
in every reachable engine state the pending collection is empty and
`check_finalized_batches` returns the empty list: the finality engine never
produces a finalized batch. -/
theorem c10_track_noop_and_never_finalizes :
    (∀ (st : EngineState) (b t : String) (s c n : Nat),
        track_l1_submission st b t s c n = st) ∧
    (∀ st : EngineState, Reachable st →
        st.pending_finality = [] ∧
        ∀ now : Nat, (check_finalized_batches st now).1 = []) := by
  have hpend : ∀ st : EngineState, Reachable st → st.pending_finality = [] := by
    intro st h
    induction h with
    | init => rfl
    | track st b t s c n _ ih => exact ih
    | confirm st t bn bh c n _ ih => exact ih
    | register st b ch ty e n w _ ih => exact ih
    | resolve st c o n _ ih => exact ih
    | check st n _ ih => rw [check_finalized_batches_pending]; exact ih
  refine ⟨fun st b t s c n => rfl, fun st h => ⟨hpend st h, fun now => ?_⟩⟩
  rw [check_finalized_batches_fst, hpend st h]
  rfl

/-- Witness for C10: starting from the fresh engine, tracking an L1
submission and registering a challenge still leaves
`check_finalized_batches` empty. -/
theorem c10_track_noop_and_never_finalizes_witness :
    track_l1_submission newEngine "batch-1" "0xabc" 3 100 3 = newEngine ∧
    (check_finalized_batches
        (register_challenge
          (track_l1_submission newEngine "batch-1" "0xabc" 3 100 3)
          "batch-1" Samples.addr3 ChallengeType.StateTransition [] 4 86400).2
        999).1 = [] :=
  ⟨c10_track_noop_and_never_finalizes.1 newEngine "batch-1" "0xabc" 3 100 3,
   (c10_track_noop_and_never_finalizes.2 _
      (Reachable.register _ "batch-1" Samples.addr3
        ChallengeType.StateTransition [] 4 86400
        (Reachable.track newEngine "batch-1" "0xabc" 3 100 3
          Reachable.init))).2 999⟩

end GhostBridge.Finality

namespace GhostBridge.BatchProcessor

open GhostBridge

/-- A successfully executed transaction is charged exactly
`calculate_gas_cost` (the 21000 on the failure path is never added to the
batch total). -/
theorem execute_single_transaction_gas (tx : Transaction) (st : GlobalState)
    (h : (execute_single_transaction tx st).success = true) :
    (execute_single_transaction tx st).gas_used = calculate_gas_cost tx := by
  unfold execute_single_transaction at h ⊢
  by_cases hb : (alookup st.balances
      (tx.from_address, tx.amount_token.toBytes)).getD 0 < tx.amount
  · rw [if_pos hb] at h; exact absurd h (by simp)
  · rw [if_neg hb]

/-- The execution fold appends to whatever executed-list accumulator it is
given, and its state and gas components do not depend on it. -/
theorem executeStep_fold_shift (txs : List Transaction)
    (e0 : List Transaction) (st : GlobalState) (g0 : Nat) :
    txs.foldl executeStep (e0, st, g0)
      = (e0 ++ (txs.foldl executeStep ([], st, g0)).1,
         (txs.foldl executeStep ([], st, g0)).2) := by
  induction txs generalizing e0 st g0 with
  | nil => simp
  | cons tx txs ih =>
      simp only [List.foldl_cons]
      cases hs : (execute_single_transaction tx st).success with
      | false =>
          simp only [executeStep, hs, Bool.false_eq_true, if_false]
          exact ih e0 st g0
      | true =>
          simp only [executeStep, hs, if_true, List.nil_append]
          rw [ih (e0 ++ [tx]), ih [tx]]
          simp

/-- Total gas after the execution fold: the `u64`-wrapped sum of the
per-transaction costs of exactly the transactions that executed. -/
theorem executeStep_fold_gas (txs : List Transaction) (st : GlobalState)
    (g0 : Nat) (hg : g0 < 18446744073709551616) :
    (txs.foldl executeStep ([], st, g0)).2.2
      = u64 (g0 + (((txs.foldl executeStep ([], st, g0)).1).map
            calculate_gas_cost).sum) := by
  induction txs generalizing st g0 with
  | nil => simpa [u64] using (Nat.mod_eq_of_lt hg).symm
  | cons tx txs ih =>
      simp only [List.foldl_cons]
      cases hs : (execute_single_transaction tx st).success with
      | false =>
          simp only [executeStep, hs, Bool.false_eq_true, if_false]
          exact ih st g0 hg
      | true =>
          have hlt : u64 (g0 + (execute_single_transaction tx st).gas_used)
              < 18446744073709551616 := Nat.mod_lt _ (by omega)
          simp only [executeStep, hs, if_true, List.nil_append]
          rw [executeStep_fold_shift txs [tx]]
          dsimp only
          rw [ih _ _ hlt, execute_single_transaction_gas tx st hs]
          simp only [List.map_append, List.map_cons, List.map_nil,
            List.sum_append, List.sum_cons, List.sum_nil,
            List.singleton_append, u64, Nat.mod_add_mod]
          ring_nf

/-- C9 (amended): for every executed transaction the gas cost is
`min (21000 + data_len * 16 + transfer, gas_limit)` where the 2300 transfer
cost is charged only when the amount is nonzero (the source adds it under
`amount > 0`), and the batch's `gas_used` equals the exact sum of the
computed costs of precisely the transactions that executed successfully
(exact as long as that sum fits in a `u64`, which the accumulator wraps
at). -/
theorem c9_gas_accounting (txs : List Transaction) (state : GlobalState)
    (hsum : (((execute_transactions txs state).executed).map
        calculate_gas_cost).sum < 18446744073709551616) :
    (∀ tx : Transaction,
        21000 + tx.data.length * 16 + 2300 < 18446744073709551616 →
        calculate_gas_cost tx
          = min (21000 + tx.data.length * 16 +
                 (if 0 < tx.amount then 2300 else 0)) tx.gas_limit) ∧
    (execute_transactions txs state).gas_used
      = (((execute_transactions txs state).executed).map
          calculate_gas_cost).sum := by
  have hexec : (execute_transactions txs state).executed
      = (txs.foldl executeStep ([], state, 0)).1 := rfl
  have hgas : (execute_transactions txs state).gas_used
      = (txs.foldl executeStep ([], state, 0)).2.2 := rfl
  constructor
  · intro tx hbound
    have h1 : tx.data.length * 16 < 18446744073709551616 := by omega
    have h2 : 21000 + tx.data.length * 16 < 18446744073709551616 := by omega
    by_cases ha : 0 < tx.amount <;>
      simp [calculate_gas_cost, ha, u64, Nat.mod_eq_of_lt h1,
        Nat.mod_eq_of_lt h2, Nat.mod_eq_of_lt hbound]
  · rw [hexec] at hsum
    rw [hgas, hexec]
    rw [executeStep_fold_gas txs state 0 (by omega)]
    rw [Nat.zero_add]
    exact Nat.mod_eq_of_lt hsum

/-- C9 counterexample: a zero-amount transaction is executed in a batch
(validation never inspects the amount) and is charged 21000 gas — without
the 2300 transfer cost — while the claim's unconditional formula demands
`min (21000 + 0 * 16 + 2300, 30000) = 23300`. -/
theorem c9_gas_counterexample :
    (execute_transactions [Samples.txZeroAmount]
        Samples.emptyGlobal).executed = [Samples.txZeroAmount] ∧
    (execute_transactions [Samples.txZeroAmount]
        Samples.emptyGlobal).gas_used = 21000 ∧
    21000 ≠ min (21000 + (Samples.txZeroAmount).data.length * 16 + 2300)
              (Samples.txZeroAmount).gas_limit := by
  refine ⟨rfl, rfl, by decide⟩

/-- Witness for C9 at a funded concrete transfer: the batch executes it,
charges `min (21000 + 2 * 16 + 2300, 30000) = 23332`, and reports exactly
that as `gas_used`. -/
theorem c9_gas_accounting_witness :
    calculate_gas_cost Samples.txTransfer
      = min (21000 + (Samples.txTransfer).data.length * 16 +
             (if 0 < (Samples.txTransfer).amount then 2300 else 0))
            (Samples.txTransfer).gas_limit ∧
    (execute_transactions [Samples.txTransfer] Samples.globalFunded).gas_used
      = (((execute_transactions [Samples.txTransfer]
            Samples.globalFunded).executed).map calculate_gas_cost).sum :=
  have h := c9_gas_accounting [Samples.txTransfer] Samples.globalFunded
    (by decide)
  ⟨h.1 Samples.txTransfer (by decide), h.2⟩

end GhostBridge.BatchProcessor
